import Mathlib

/-!
Verification of the module descriptor of `sale_order_label_override`.

The repository consists of a single file,
`custom-addons/sale_order_label_override/__manifest__.py`, whose whole
content is one Python dict literal.  We embed that literal twice:

* `manifestSource` is a syntactic embedding of the expression in the file
  (a tiny fragment of Python expressions, enough to cover the literal and
  to distinguish literals from name references and calls);
* `manifestDict` is the evaluated dictionary, an association list from
  keys to values, and `manifest` the typed descriptor record it denotes.

The host framework (module loader, module catalog, installed files) is not
part of the repository; where a claim needs it, a definition carries a
doc comment starting with `Modelled from the spec:`.
-/

namespace SaleOrderLabelOverride

/-- A value of the manifest dictionary: the dict in the source only holds
strings, lists of strings, and booleans. -/
inductive Value where
  | str (s : String)
  | strList (l : List String)
  | bool (b : Bool)
  deriving DecidableEq

/-- An atomic Python expression as it may occur inside a list literal of the
manifest file: a string literal or a reference to a name. -/
inductive PyAtom where
  | strLit (s : String)
  | nameRef (n : String)
  deriving DecidableEq

/-- A Python expression as it may occur as a value of the manifest dict:
string, boolean and list literals are pure; a name reference or a call
would need the evaluation environment. -/
inductive PyExpr where
  | strLit (s : String)
  | boolLit (b : Bool)
  | nameRef (n : String)
  | callExpr (f : String) (args : List PyAtom)
  | listLit (elems : List PyAtom)
  deriving DecidableEq

/-- An atom is a literal iff it is not a name reference. -/
def PyAtom.isLiteral : PyAtom → Bool
  | .strLit _ => true
  | .nameRef _ => false

/-- An expression is a pure literal: no name references and no calls,
at the top nor inside a list. -/
def PyExpr.isLiteral : PyExpr → Bool
  | .strLit _ => true
  | .boolLit _ => true
  | .nameRef _ => false
  | .callExpr _ _ => false
  | .listLit es => es.all PyAtom.isLiteral

/-- Evaluate an atom under an environment resolving names. -/
def evalAtom (env : String → Option Value) : PyAtom → Option Value
  | .strLit s => some (.str s)
  | .nameRef n => env n

/-- Extract the string of a string value, if it is one. -/
def Value.asStr : Value → Option String
  | .str s => some s
  | _ => none

/-- Evaluate an expression under an environment resolving names; calls are
not resolvable in this fragment (the manifest file may not execute code). -/
def evalExpr (env : String → Option Value) : PyExpr → Option Value
  | .strLit s => some (.str s)
  | .boolLit b => some (.bool b)
  | .nameRef n => env n
  | .callExpr _ _ => none
  | .listLit es =>
    (es.mapM (evalAtom env)).bind fun vs =>
      (vs.mapM Value.asStr).map Value.strList

/-- Evaluate a dict literal entry-wise under an environment. -/
def evalDict (env : String → Option Value) (entries : List (String × PyExpr)) :
    Option (List (String × Value)) :=
  entries.mapM fun e => (evalExpr env e.2).map fun v => (e.1, v)

/-- The manifest file `__manifest__.py`, embedded syntactically: its whole
content is this single dict literal. -/
def manifestSource : List (String × PyExpr) :=
  [ ("name", .strLit "Sale Order Label Override"),
    ("version", .strLit "18.0.1.0.0"),
    ("depends", .listLit [.strLit "sale", .strLit "account", .strLit "mail"]),
    ("data", .listLit
      [ .strLit "views/sale_order_report.xml",
        .strLit "views/quotation_template.xml",
        .strLit "data/email_template_data.xml",
        .strLit "views/email_layout_override.xml" ]),
    ("installable", .boolLit true) ]

/-- The manifest dictionary as an association list, from
`__manifest__.py`. -/
def manifestDict : List (String × Value) :=
  [ ("name", .str "Sale Order Label Override"),
    ("version", .str "18.0.1.0.0"),
    ("depends", .strList ["sale", "account", "mail"]),
    ("data", .strList
      [ "views/sale_order_report.xml",
        "views/quotation_template.xml",
        "data/email_template_data.xml",
        "views/email_layout_override.xml" ]),
    ("installable", .bool true) ]

/-- The typed module descriptor of the spec's data model. -/
structure ModuleDescriptor where
  name : String
  version : String
  depends : List String
  data : List String
  installable : Bool
  deriving DecidableEq

/-- The descriptor declared by `__manifest__.py`. -/
def manifest : ModuleDescriptor :=
  { name := "Sale Order Label Override",
    version := "18.0.1.0.0",
    depends := ["sale", "account", "mail"],
    data :=
      [ "views/sale_order_report.xml",
        "views/quotation_template.xml",
        "data/email_template_data.xml",
        "views/email_layout_override.xml" ],
    installable := true }

/-- Split a character list at every occurrence of the separator; the result
always has one more piece than there are separators. -/
def splitOnChar (c : Char) : List Char → List (List Char)
  | [] => [[]]
  | a :: as =>
    match splitOnChar c as with
    | [] => [[a]]
    | h :: t => if a = c then [] :: h :: t else (a :: h) :: t

/-- The dot-separated components of a string. -/
def dotComponents (s : String) : List String :=
  (splitOnChar '.' s.toList).map List.asString

/-- The slash-separated components of a string. -/
def slashComponents (s : String) : List String :=
  (splitOnChar '/' s.toList).map List.asString

/-- The key has the type the descriptor format assigns to it. -/
def expectedShape : String → Value → Bool
  | "name", .str _ => true
  | "version", .str _ => true
  | "depends", .strList _ => true
  | "data", .strList _ => true
  | "installable", .bool _ => true
  | _, _ => false

/-- A relative resource path: non-empty, forward slashes only (no
backslash), no leading slash, no `..` component, ending in `.xml`. -/
def isRelativeXmlPath (s : String) : Bool :=
  decide (s ≠ "")
    && s.toList.all (fun c => c ≠ '\\')
    && (match s.toList with
        | [] => false
        | c :: _ => decide (c ≠ '/'))
    && (slashComponents s).all (fun comp => comp ≠ "..")
    && List.isSuffixOf ".xml".toList s.toList

/-- Modelled from the spec: the host framework's supported version, the
"major-version prefix" `18.0` of a host of major version 18.0.  The host
framework itself is not part of the repository. -/
def hostSupportedVersion : String := "18.0"

/-- Modelled from the spec: the host's known module catalog, restricted to
the modules the spec names as resolvable prerequisites; the catalog itself
lives in the host framework, outside the repository. -/
def hostModuleCatalog : List String := ["sale", "account", "mail"]

/-- Modelled from the spec: the file set of the packaged module.  The spec
states that every entry of `data` exists at its stated relative path in
the module; the resource files themselves are not under the repository
sources given here. -/
def packagedModuleFiles : List String :=
  [ "__manifest__.py",
    "views/sale_order_report.xml",
    "views/quotation_template.xml",
    "data/email_template_data.xml",
    "views/email_layout_override.xml" ]

/-- Modelled from the spec: the external module loader.  It refuses
installation exactly when `installable` is false (and then loads no data),
otherwise resolves every entry of `depends` against the catalog, then
loads the paths of `data`, in listed order, each of which must exist. -/
def loadModule (catalog : List String) (files : List String)
    (d : ModuleDescriptor) : Option (List String) :=
  if d.installable = false then none
  else if !(d.depends.all fun m => catalog.contains m) then none
  else if !(d.data.all fun p => files.contains p) then none
  else some d.data

/-- The loader's refuse-installation branch is taken on this descriptor. -/
def loaderRefuses (d : ModuleDescriptor) : Bool :=
  d.installable = false

/-- Replace the `installable` flag of a descriptor. -/
def withInstallable (d : ModuleDescriptor) (b : Bool) : ModuleDescriptor :=
  { name := d.name, version := d.version, depends := d.depends,
    data := d.data, installable := b }

/-- C1: the manifest dictionary consists of exactly the five keys `name`,
`version`, `depends`, `data`, `installable`, in this order, with `name` and
`version` strings, `depends` and `data` lists of strings, and `installable`
a boolean; no other key is present. -/
theorem c1_descriptor_shape :
    manifestDict.map Prod.fst = ["name", "version", "depends", "data", "installable"]
    ∧ manifestDict.all (fun e => expectedShape e.1 e.2) = true := by
  decide

/-- C2: the descriptor's `depends` is exactly `["sale", "account", "mail"]`
and its `data` lists exactly the four paths, in this exact order. -/
theorem c2_depends_and_data :
    manifest.depends = ["sale", "account", "mail"]
    ∧ manifest.data =
      [ "views/sale_order_report.xml",
        "views/quotation_template.xml",
        "data/email_template_data.xml",
        "views/email_layout_override.xml" ]
    ∧ manifest.data.length = 4 := by
  decide

/-- C3, counterexample: the claim that the version string consists of
exactly four dot-separated components fails on the descriptor's version
`"18.0.1.0.0"`. -/
theorem c3_counterexample :
    ¬ (dotComponents manifest.version).length = 4 := by
  decide

/-- C3, amended: the descriptor's version string consists of exactly five
dot-separated components, the two-component host prefix `18.0` followed by
`<major>.<minor>.<patch>`. -/
theorem c3_version_components :
    dotComponents manifest.version = ["18", "0", "1", "0", "0"]
    ∧ (dotComponents manifest.version).length = 5 := by
  decide

/-- C4: the leading two dot-separated components of the descriptor's
version are `"18"` and `"0"`, matching the host framework's supported
version `18.0`. -/
theorem c4_version_prefix :
    (dotComponents manifest.version).take 2 = dotComponents hostSupportedVersion
    ∧ (dotComponents manifest.version).take 2 = ["18", "0"] := by
  decide

/-- C5: `installable` is true in this descriptor; the loader's
refuse-installation branch is taken exactly when `installable` is false,
in which case no data is loaded, and it is not taken for this module. -/
theorem c5_installable_refuse_branch :
    manifest.installable = true
    ∧ loaderRefuses manifest = false
    ∧ (∀ d : ModuleDescriptor, loaderRefuses d = !d.installable)
    ∧ (∀ c f : List String, ∀ d : ModuleDescriptor,
        loadModule c f (withInstallable d false) = none) := by
  refine ⟨rfl, rfl, ?_, ?_⟩
  · intro d
    rcases d with ⟨n, v, dep, da, i⟩
    cases i <;> rfl
  · intro c f d
    rfl

/-- C5 witness: the universally quantified parts of
`c5_installable_refuse_branch` instantiated at the concrete descriptor,
catalog and file set. -/
theorem c5_installable_refuse_branch_witness :
    loaderRefuses manifest = !manifest.installable
    ∧ loadModule hostModuleCatalog packagedModuleFiles
        (withInstallable manifest false) = none :=
  ⟨c5_installable_refuse_branch.2.2.1 manifest,
   c5_installable_refuse_branch.2.2.2 hostModuleCatalog packagedModuleFiles manifest⟩

/-- C6: the descriptor's `name` is the non-empty string
`"Sale Order Label Override"`; the embedding is a constant, never
mutated, so this holds in the descriptor's single state. -/
theorem c6_name_nonempty :
    manifest.name = "Sale Order Label Override" ∧ manifest.name ≠ "" := by
  decide

/-- C7: every entry of the descriptor's `data` exists in the packaged
module's file set at its stated relative path. -/
theorem c7_data_files_exist :
    (manifest.data.all fun p => packagedModuleFiles.contains p) = true := by
  decide

/-- C8: every entry of the descriptor's `depends` names a module of the
host's known module catalog, so each resolves to an installable module. -/
theorem c8_depends_resolve :
    (manifest.depends.all fun m => hostModuleCatalog.contains m) = true := by
  decide

/-- C9: every entry of `depends` and of `data` is non-empty; entries are
pairwise distinct within each sequence; and every `data` entry is a
relative path with forward slashes, no leading slash, no `..` component,
ending in `.xml`. -/
theorem c9_entry_invariants :
    (manifest.depends.all fun s => s ≠ "") = true
    ∧ (manifest.data.all fun s => s ≠ "") = true
    ∧ manifest.depends.Nodup
    ∧ manifest.data.Nodup
    ∧ manifest.data.all isRelativeXmlPath = true := by
  decide

/-- C10: the manifest file is a single dict literal with no name
references and no calls, and evaluating it needs no environment: under
every environment it evaluates, without effects, to the same dictionary
`manifestDict`. -/
theorem c10_manifest_pure_literal :
    (manifestSource.all fun e => e.2.isLiteral) = true
    ∧ ∀ env : String → Option Value, evalDict env manifestSource = some manifestDict := by
  refine ⟨by decide, ?_⟩
  intro env
  rfl

/-- C10 witness: the universally quantified part of
`c10_manifest_pure_literal` instantiated at the empty environment. -/
theorem c10_manifest_pure_literal_witness :
    evalDict (fun _ => none) manifestSource = some manifestDict :=
  c10_manifest_pure_literal.2 (fun _ => none)

end SaleOrderLabelOverride
